import Mathlib

/-!
Verification development for the pynoon client library
(src/pynoon/__init__.py).  The Python code is shallowly embedded:
dynamic Python values become the inductive type `PyVal`, Python's `==`
becomes `pyEq`, dictionaries become association lists with
hashability-aware lookup, raised exceptions become `Except PyErr`,
and `datetime` instants become integer seconds.
-/

namespace Pynoon

/-- Dynamic Python values as they occur in this library: JSON scalars,
JSON arrays and objects, and class objects (the second argument of
`isinstance`). -/
inductive PyVal where
  | none
  | bool (b : Bool)
  | int (n : Int)
  | str (s : String)
  | list (xs : List PyVal)
  | dict (entries : List (PyVal × PyVal))
  | typeObj (t : String)

/-- Python exceptions raised by the embedded code paths. -/
inductive PyErr where
  | typeError
  | attributeError
  | noonAuthenticationError
  | noonInvalidParametersError
  | noonInvalidJsonError
  | noonDuplicateIdError
  | noonException
deriving DecidableEq, Repr

mutual

/-- Python `==` on the embedded values: `True == 1`, `False == 0`,
strings compare by content, lists elementwise, dicts by key set and
values (order-insensitive), distinct kinds are unequal otherwise. -/
def pyEq : PyVal → PyVal → Bool
  | .none, .none => true
  | .bool a, .bool b => a == b
  | .bool a, .int n => (if a then (1 : Int) else 0) == n
  | .int n, .bool a => n == (if a then (1 : Int) else 0)
  | .int a, .int b => a == b
  | .str a, .str b => a == b
  | .list xs, .list ys => pyEqList xs ys
  | .dict xs, .dict ys => pyDictLe xs ys && pyDictLe ys xs
  | .typeObj a, .typeObj b => a == b
  | _, _ => false
termination_by a b => sizeOf a + sizeOf b

/-- Elementwise Python `==` on lists. -/
def pyEqList : List PyVal → List PyVal → Bool
  | [], [] => true
  | x :: xs, y :: ys => pyEq x y && pyEqList xs ys
  | _, _ => false
termination_by xs ys => sizeOf xs + sizeOf ys

/-- Every binding of the first dict is matched by the second. -/
def pyDictLe : List (PyVal × PyVal) → List (PyVal × PyVal) → Bool
  | [], _ => true
  | (k, v) :: rest, ys => pyLookupEq k v ys && pyDictLe rest ys
termination_by xs ys => sizeOf xs + sizeOf ys

/-- The dict holds a binding for the key (by `pyEq`) whose value is
`pyEq` to the given one. -/
def pyLookupEq : PyVal → PyVal → List (PyVal × PyVal) → Bool
  | _, _, [] => false
  | k, v, (k2, v2) :: rest =>
    if pyEq k k2 then pyEq v v2 else pyLookupEq k v rest
termination_by k v ys => sizeOf k + sizeOf v + sizeOf ys

end

/-- Python hashability: lists and dicts are unhashable, every other
embedded value is hashable. -/
def pyHashable : PyVal → Bool
  | .list _ => false
  | .dict _ => false
  | _ => true

/-- `d.get(k, None)` for a dict literal with `PyVal` keys already known
to be hashable (the string-keyed dicts the code builds).  Returns the
first binding whose key is `pyEq` to `k`. -/
def dictGetD : List (PyVal × PyVal) → PyVal → PyVal
  | [], _ => .none
  | (k2, v) :: rest, k => if pyEq k k2 then v else dictGetD rest k

/-- `m.get(k, None)` with an arbitrary key: Python hashes the key
first, so an unhashable key raises `TypeError` before any comparison. -/
def pyAssocGet {α : Type} (m : List (PyVal × α)) (k : PyVal) :
    Except PyErr (Option α) :=
  if pyHashable k then
    .ok (m.findSome? (fun kv => if pyEq k kv.1 then some kv.2 else Option.none))
  else
    .error .typeError

/-- Replace-or-append core of dict assignment. -/
def pyAssocSetCore {α : Type} : List (PyVal × α) → PyVal → α → List (PyVal × α)
  | [], k, v => [(k, v)]
  | (k2, v2) :: rest, k, v =>
    if pyEq k k2 then (k2, v) :: rest else (k2, v2) :: pyAssocSetCore rest k v

/-- `m[k] = v`: replaces the value of the first key `pyEq` to `k`
(keeping the stored key, as Python does) or appends a new binding;
an unhashable key raises `TypeError`. -/
def pyAssocSet {α : Type} (m : List (PyVal × α)) (k : PyVal) (v : α) :
    Except PyErr (List (PyVal × α)) :=
  if pyHashable k then .ok (pyAssocSetCore m k v) else .error .typeError

/-- Tests the `is None` identity check (`None` is a singleton, so the
identity check coincides with matching the `none` constructor). -/
def PyVal.isNone : PyVal → Bool
  | .none => true
  | _ => false

/-- The typed change events the entities dispatch
(`NoonSpace.Event` and `NoonLine.Event`). -/
inductive NoonEventTy where
  | sceneChanged
  | lightsOnChanged
  | dimLevelChanged
  | lineStateChanged
deriving DecidableEq, Repr

/-- One invocation of a subscriber's handler: which subscriber was
called, with which event and which params dict.  Subscribers are
identified by opaque tokens (`Nat`). -/
structure Dispatch where
  subscriber : Nat
  event : NoonEventTy
  params : List (PyVal × PyVal)

/-- `NoonEntity._dispatch_event`: calls every subscriber's handler
once, in subscription order, with the event and params. -/
def dispatchEvent (subs : List Nat) (ev : NoonEventTy)
    (params : List (PyVal × PyVal)) : List Dispatch :=
  subs.map (fun sub => { subscriber := sub, event := ev, params := params })

/-- Mutable state of a `NoonSpace` object.  `scenes` maps a scene guid
to the stored `NoonScene` object's name (the only attribute of the
stored scene that the space's code reads). -/
structure SpaceState where
  guid : PyVal
  name : PyVal
  subscribers : List Nat
  activeScene : PyVal
  lightsOn : PyVal
  scenes : List (PyVal × PyVal)
  devices : List (PyVal × PyVal)
  lines : List (PyVal × PyVal)

/-- Mutable state of a `NoonLine` object.  `parentSpace` holds the
parent space's guid (the back-reference). -/
structure LineState where
  guid : PyVal
  name : PyVal
  subscribers : List Nat
  lineState : PyVal
  dimmingLevel : PyVal
  parentSpace : PyVal

/-- Mutable state of a `NoonDevice` object. -/
structure DeviceState where
  guid : PyVal
  name : PyVal
  subscribers : List Nat
  capabilities : PyVal
  batteryLevel : PyVal
  base : PyVal
  line : PyVal
  scenesAllowed : PyVal
  isMaster : PyVal
  isOnline : PyVal
  softwareVersion : PyVal

/-- Mutable state of a `NoonScene` object. -/
structure SceneState where
  guid : PyVal
  name : PyVal
  subscribers : List Nat
  parentSpace : PyVal

/-- A registered entity, by concrete kind. -/
inductive EntityState where
  | space (s : SpaceState)
  | line (l : LineState)
  | device (d : DeviceState)
  | scene (sc : SceneState)

/-- The guid of an entity, whatever its kind. -/
def EntityState.guid : EntityState → PyVal
  | .space s => s.guid
  | .line l => l.guid
  | .device d => d.guid
  | .scene sc => sc.guid

/-- The name of an entity, whatever its kind. -/
def EntityState.name : EntityState → PyVal
  | .space s => s.name
  | .line l => l.name
  | .device d => d.name
  | .scene sc => sc.name

/-- `NoonSpace.lightsOn` setter: remembers whether the raw values
differ, always stores the new value, and dispatches
`LIGHTSON_CHANGED` to every subscriber only when they differed. -/
def NoonSpace.setLightsOn (s : SpaceState) (value : PyVal) :
    SpaceState × List Dispatch :=
  let valueChanged := !(pyEq s.lightsOn value)
  let s' := { s with lightsOn := value }
  (s', if valueChanged then
        dispatchEvent s.subscribers .lightsOnChanged [(.str "lightsOn", value)]
      else [])

/-- The normalization step at the top of the `NoonSpace.activeScene`
setter: a dict value carrying a non-None `guid` entry is replaced by
that entry, everything else passes through. -/
def NoonSpace.normalizeSceneValue (value : PyVal) : PyVal :=
  match value with
  | .dict entries => if (dictGetD entries (.str "guid")).isNone
                     then value else dictGetD entries (.str "guid")
  | _ => value

/-- `NoonSpace.activeScene` setter: the incoming value is normalized,
then looked up in the space's own scene map (Python hashes the key, so
an unhashable normalized value raises `TypeError`); an unknown value is
logged and ignored, leaving state untouched; a known scene guid is
stored and `SCENE_CHANGED` is dispatched only if the value changed. -/
def NoonSpace.setActiveScene (s : SpaceState) (value : PyVal) :
    Except PyErr (SpaceState × List Dispatch) := do
  let actualValue := NoonSpace.normalizeSceneValue value
  let newScene ← pyAssocGet s.scenes actualValue
  match newScene with
  | Option.none => .ok (s, [])
  | Option.some _ =>
    let valueChanged := !(pyEq s.activeScene actualValue)
    let s' := { s with activeScene := actualValue }
    .ok (s', if valueChanged then
          dispatchEvent s.subscribers .sceneChanged [(.str "sceneId", actualValue)]
        else [])

/-- `NoonLine.lineState` setter: stores the raw value (no coercion
appears in the code) and dispatches `LINE_STATE_CHANGED` only when the
raw values differ. -/
def NoonLine.setLineState (l : LineState) (value : PyVal) :
    LineState × List Dispatch :=
  let valueChanged := !(pyEq l.lineState value)
  let l' := { l with lineState := value }
  (l', if valueChanged then
        dispatchEvent l.subscribers .lineStateChanged [(.str "lineState", value)]
      else [])

/-- `NoonLine.dimmingLevel` setter: always stores, dispatches
`DIM_LEVEL_CHANGED` only when the raw values differ. -/
def NoonLine.setDimmingLevel (l : LineState) (value : PyVal) :
    LineState × List Dispatch :=
  let valueChanged := !(pyEq l.dimmingLevel value)
  let l' := { l with dimmingLevel := value }
  (l', if valueChanged then
        dispatchEvent l.subscribers .dimLevelChanged [(.str "dimLevel", value)]
      else [])

/-- First match of a key in a Python dict literal, distinguishing a
missing key from one bound to `None` (needed by `get` with a non-None
default). -/
def dictGet? : List (PyVal × PyVal) → PyVal → Option PyVal
  | [], _ => Option.none
  | (k2, v) :: rest, k => if pyEq k k2 then some v else dictGet? rest k

/-- The registry owned by the `Noon` facade: the flat map over every
kind plus the four kind-specific maps.  In Python the maps hold
references to the same objects; the model stores entity states, and
post-registration mutations are written back to the flat map, which is
the only map the change-routing code reads afterwards. -/
structure Registry where
  allEntities : List (PyVal × EntityState)
  spaces : List (PyVal × EntityState)
  devices : List (PyVal × EntityState)
  lines : List (PyVal × EntityState)
  scenes : List (PyVal × EntityState)

/-- The registry of a freshly constructed `Noon` object. -/
def Registry.empty : Registry :=
  { allEntities := [], spaces := [], devices := [], lines := [], scenes := [] }

/-- `Noon._registerEntity`: unconditionally overwrites the flat
`__allEntities` entry, then inserts into the kind-specific map only if
the guid is absent there; for a kind-map duplicate, the guard
`entity.name != existingEntity.name and False` is always false (the
literal `False` disables the `NoonDuplicateIdError` path), so the
function silently returns. -/
def Noon.registerEntity (r : Registry) (e : EntityState) :
    Except PyErr Registry := do
  let all ← pyAssocSet r.allEntities e.guid e
  let r := { r with allEntities := all }
  match e with
  | .space _ => do
    match (← pyAssocGet r.spaces e.guid) with
    | Option.some existing =>
      if !(pyEq e.name existing.name) && false then .error .noonDuplicateIdError
      else .ok r
    | Option.none => do
      let m ← pyAssocSet r.spaces e.guid e
      .ok { r with spaces := m }
  | .device _ => do
    match (← pyAssocGet r.devices e.guid) with
    | Option.some existing =>
      if !(pyEq e.name existing.name) && false then .error .noonDuplicateIdError
      else .ok r
    | Option.none => do
      let m ← pyAssocSet r.devices e.guid e
      .ok { r with devices := m }
  | .line _ => do
    match (← pyAssocGet r.lines e.guid) with
    | Option.some existing =>
      if !(pyEq e.name existing.name) && false then .error .noonDuplicateIdError
      else .ok r
    | Option.none => do
      let m ← pyAssocSet r.lines e.guid e
      .ok { r with lines := m }
  | .scene _ => do
    match (← pyAssocGet r.scenes e.guid) with
    | Option.some existing =>
      if !(pyEq e.name existing.name) && false then .error .noonDuplicateIdError
      else .ok r
    | Option.none => do
      let m ← pyAssocSet r.scenes e.guid e
      .ok { r with scenes := m }

/-- Result of the `vars(affectedEntity.__class__)` reflection in
`Noon._handle_change`: the own properties of the concrete class that
carry a setter.  `NoonSpace` has `lightsOn` and `activeScene` (but not
`activeSceneName`), `NoonLine` has `lineState` and `dimmingLevel` (but
not `parentSpace`), and `NoonDevice`/`NoonScene` define no setter. -/
def writableFields : EntityState → List String
  | .space _ => ["lightsOn", "activeScene"]
  | .line _ => ["lineState", "dimmingLevel"]
  | .device _ => []
  | .scene _ => []

/-- Python `key in writeableFields` with a list of property names:
membership is decided by `==` against each element. -/
def pyInStrList (key : PyVal) (names : List String) : Bool :=
  names.any (fun n => pyEq key (.str n))

/-- `setattr(affectedEntity, key, value)` for a key already known to
name a writable property of the entity's concrete kind: it invokes the
corresponding property setter. -/
def entitySetAttr (e : EntityState) (key value : PyVal) :
    Except PyErr (EntityState × List Dispatch) :=
  match e, key with
  | .space s, .str "lightsOn" =>
    let (s', ds) := NoonSpace.setLightsOn s value
    .ok (.space s', ds)
  | .space s, .str "activeScene" => do
    let (s', ds) ← NoonSpace.setActiveScene s value
    .ok (.space s', ds)
  | .line l, .str "lineState" =>
    let (l', ds) := NoonLine.setLineState l value
    .ok (.line l', ds)
  | .line l, .str "dimmingLevel" =>
    let (l', ds) := NoonLine.setDimmingLevel l value
    .ok (.line l', ds)
  | _, _ => .error .attributeError

/-- One iteration of the field loop in `Noon._handle_change`:
`changedField.get("name")` requires a dict (anything else has no `get`
method and raises `AttributeError`); a name that is not in the
writable-property list is logged and ignored, a writable name is
applied through `setattr`. -/
def Noon.handleField (e : EntityState) (fld : PyVal) :
    Except PyErr (EntityState × List Dispatch) :=
  match fld with
  | .dict fes =>
    let key := dictGetD fes (.str "name")
    let value := dictGetD fes (.str "value")
    if pyInStrList key (writableFields e) then entitySetAttr e key value
    else .ok (e, [])
  | _ => .error .attributeError

/-- The field loop of `Noon._handle_change`, threading the registry:
each successful mutation of the (aliased) entity object is immediately
visible through the flat map, so a raise part-way keeps the earlier
updates, as in Python. -/
def Noon.applyFields (r : Registry) (guid : PyVal) (e : EntityState)
    (flds : List PyVal) (acc : List Dispatch) :
    Except PyErr (Registry × List Dispatch) :=
  match flds with
  | [] => .ok (r, acc)
  | f :: rest => do
    let (e', ds) ← Noon.handleField e f
    let all ← pyAssocSet r.allEntities guid e'
    Noon.applyFields { r with allEntities := all } guid e' rest (acc ++ ds)

/-- Python `for` iteration over the value of `fields`: a list yields
its items, a string yields its one-character strings, a dict yields
its keys, anything else is not iterable and raises `TypeError`. -/
def pyIter (v : PyVal) : Except PyErr (List PyVal) :=
  match v with
  | .list xs => .ok xs
  | .str s => .ok (s.toList.map (fun c => .str (String.mk [c])))
  | .dict es => .ok (es.map (fun kv => kv.1))
  | _ => .error .typeError

/-- `Noon._handle_change`: reads `guid` from the change summary (a
non-dict summary has no `get` and raises); a missing/None guid is
logged and dropped; the guid is resolved through the flat
`__allEntities` map (hashing an unhashable guid value raises
`TypeError`); an unresolved guid is logged and dropped; otherwise each
entry of `fields` (default `[]` when the key is missing) is applied in
order. -/
def Noon.handleChange (r : Registry) (changeSummary : PyVal) :
    Except PyErr (Registry × List Dispatch) :=
  match changeSummary with
  | .dict entries =>
    let guid := dictGetD entries (.str "guid")
    if guid.isNone then .ok (r, [])
    else do
      match (← pyAssocGet r.allEntities guid) with
      | Option.none => .ok (r, [])
      | Option.some e => do
        let flds ← pyIter ((dictGet? entries (.str "fields")).getD (.list []))
        Noon.applyFields r guid e flds []
  | _ => .error .attributeError

/-- The three URL constants from `pynoon.const` that the session code
posts to or fetches. -/
inductive Url where
  | loginUrl
  | renewTokenUrl
  | dexUrl
deriving DecidableEq, Repr

/-- A network round-trip issued by the session code. -/
inductive NetRequest where
  | post (url : Url) (payload : PyVal)
  | get (url : Url)

/-- The token-lifecycle state owned by the `Noon` facade.  Instants
(`datetime.datetime.now()` values) are integer seconds; the several
`now()` calls inside one `authenticate()` invocation are modelled as a
single instant. -/
structure AuthState where
  token : PyVal
  loginResponse : PyVal
  tokenValidUntil : Int
  tokenRenewValidUntil : Int
  username : PyVal
  password : PyVal
  endpoints : List (PyVal × PyVal)

/-- Python `x - 30` on a value read from a JSON response: defined for
ints (and bools, which are ints), `TypeError` otherwise. -/
def pySubInt (v : PyVal) (n : Int) : Except PyErr Int :=
  match v with
  | .int m => .ok (m - n)
  | .bool b => .ok ((if b then (1 : Int) else 0) - n)
  | _ => .error .typeError

/-- `Noon._refreshEndpoints`: fetches the endpoint directory and
requires the response to be a dict whose `endpoints` entry is a dict;
anything else raises `NoonAuthenticationError`. -/
def Noon.refreshEndpoints (resp : NetRequest → PyVal) (st : AuthState) :
    Except PyErr AuthState :=
  match resp (.get .dexUrl) with
  | .dict entries =>
    match dictGetD entries (.str "endpoints") with
    | .dict eps => .ok { st with endpoints := eps }
    | _ => .error .noonAuthenticationError
  | _ => .error .noonAuthenticationError

/-- `Noon.authenticate`: returns at once on a cached non-None token
that is still valid; otherwise posts to `LOGIN_URL` with the stored
credentials when `tokenRenewValidUntil` is still in the future and to
`RENEW_TOKEN_URL` with the prior login response otherwise; a dict
response with a non-None `token` stores it, computes the two expiry
instants with the 30-second margin (the bare `self._refreshEndpoints`
statement on the length-zero branch is an attribute access that calls
nothing, after which `_refreshEndpoints()` always runs); any other
response raises `NoonAuthenticationError`.  The returned list records
the network requests issued on the successful path.

The request it issues once the cached token is unusable is
`Noon.authRequest`: `LOGIN_URL` with fresh credentials while
`tokenRenewValidUntil` lies in the future, `RENEW_TOKEN_URL` with the
prior login response once it is past. -/
def Noon.authRequest (now : Int) (st : AuthState) : NetRequest :=
  if now < st.tokenRenewValidUntil then
    .post .loginUrl
      (.dict [(.str "email", st.username), (.str "password", st.password)])
  else
    .post .renewTokenUrl st.loginResponse

def Noon.authenticate (resp : NetRequest → PyVal) (now : Int)
    (st : AuthState) : Except PyErr (AuthState × List NetRequest) :=
  if st.token.isNone = false ∧ now < st.tokenValidUntil then
    .ok (st, [])
  else
    let req : NetRequest := Noon.authRequest now st
    match resp req with
    | .dict entries =>
      if (dictGetD entries (.str "token")).isNone then
        .error .noonAuthenticationError
      else do
        let lifetime ←
          pySubInt ((dictGet? entries (.str "lifetime")).getD (.int 0)) 30
        let renewLifetime ←
          pySubInt ((dictGet? entries (.str "renewLifetime")).getD (.int 0)) 30
        let st := { st with
          loginResponse := .dict entries,
          token := dictGetD entries (.str "token"),
          tokenValidUntil := now + lifetime,
          tokenRenewValidUntil := now + renewLifetime }
        let st ← Noon.refreshEndpoints resp st
        .ok (st, [req, .get .dexUrl])
    | _ => .error .noonAuthenticationError

/-- What `Noon._websocket_disconnected` does after flagging
`__subscribed = False`: raise the bare `NoonException` or call
`self.connect()` once. -/
inductive DisconnectOutcome where
  | raiseFatal
  | callConnect
deriving DecidableEq, Repr

/-- `Noon._websocket_disconnected`: clears the subscribed flag, then
raises when `__lastConnectAttempt < now - 30 seconds` (the attempt is
more than 30 seconds in the past) and otherwise calls `connect()`
again.  The pair is the new subscribed flag and the chosen outcome. -/
def Noon.websocketDisconnected (lastConnectAttempt now : Int) :
    Bool × DisconnectOutcome :=
  (false,
   if lastConnectAttempt < now - 30 then .raiseFatal else .callConnect)

/-- Python `isinstance(obj, cls)`: the second argument must be a class
object, otherwise `TypeError`; with a class, the result says whether
the object's type matches. -/
def pyIsInstance (obj cls : PyVal) : Except PyErr Bool :=
  match cls with
  | .typeObj t =>
    .ok (match obj, t with
         | .str _, "str" => true
         | .int _, "int" => true
         | .bool _, "bool" => true
         | .list _, "list" => true
         | .dict _, "dict" => true
         | _, _ => false)
  | _ => .error .typeError

/-- Attribute access `line.guid` on a value taken from a parsed JSON
payload or a class object: none of these carries a `guid` attribute,
so the access raises `AttributeError`. -/
def pyGetAttrGuid : PyVal → Except PyErr PyVal
  | _ => .error .attributeError

/-- The line-normalization expression of `NoonDevice.__init__`, read
verbatim from the source:
`line if isinstance('string', line) else line.guid`.
Note the swapped `isinstance` arguments: the string literal is the
object and `line` is used as the class argument. -/
def NoonDevice.initLineField (line : PyVal) : Except PyErr PyVal := do
  let cond ← pyIsInstance (.str "string") line
  if cond then .ok line else pyGetAttrGuid line

/-- `NoonDevice.__init__`: stores the plain fields, evaluates the
line-normalization expression (which registers nothing if it raises,
since `super().__init__` runs only afterwards), then registers. -/
def NoonDevice.init (r : Registry) (guid name capabilities batteryLevel
    base line scenesAllowed isMaster isOnline softwareVersion : PyVal) :
    Except PyErr (Registry × DeviceState) := do
  let lineVal ← NoonDevice.initLineField line
  let d : DeviceState := {
    guid := guid, name := name, subscribers := [],
    capabilities := capabilities, batteryLevel := batteryLevel,
    base := base, line := lineVal, scenesAllowed := scenesAllowed,
    isMaster := isMaster, isOnline := isOnline,
    softwareVersion := softwareVersion }
  let r' ← Noon.registerEntity r (.device d)
  .ok (r', d)

/-- `NoonDevice.fromJsonObject`: the payload must be a pre-parsed dict
(the `noon` parameter is always the facade at the call sites, so its
`isinstance` check passes); `guid` or `displayName` missing raises
`NoonInvalidJsonError`; otherwise the constructor runs. -/
def NoonDevice.fromJsonObject (r : Registry) (json : PyVal) :
    Except PyErr (Registry × DeviceState) :=
  match json with
  | .dict entries =>
    let guid := dictGetD entries (.str "guid")
    let name := dictGetD entries (.str "displayName")
    if guid.isNone || name.isNone then .error .noonInvalidJsonError
    else
      NoonDevice.init r guid name
        (dictGetD entries (.str "capabilities"))
        (dictGetD entries (.str "batteryLevel"))
        (dictGetD entries (.str "base"))
        (dictGetD entries (.str "line"))
        (dictGetD entries (.str "scenesAllowed"))
        (dictGetD entries (.str "isMaster"))
        (dictGetD entries (.str "isOnline"))
        (dictGetD entries (.str "softwareVersion"))
  | _ => .error .noonInvalidParametersError

/-- `NoonScene.fromJsonObject`: requires a dict payload with non-None
`guid` and `name`, constructs and registers the scene. -/
def NoonScene.fromJsonObject (r : Registry) (space : PyVal) (json : PyVal) :
    Except PyErr (Registry × SceneState) :=
  match json with
  | .dict entries =>
    let guid := dictGetD entries (.str "guid")
    let name := dictGetD entries (.str "name")
    if guid.isNone || name.isNone then .error .noonInvalidJsonError
    else do
      let sc : SceneState := {
        guid := guid, name := name, subscribers := [], parentSpace := space }
      let r' ← Noon.registerEntity r (.scene sc)
      .ok (r', sc)
  | _ => .error .noonInvalidParametersError

/-- `NoonLine.fromJsonObject`: requires a dict payload with non-None
`guid` and `displayName`; the constructor registers the line with both
status fields `None`, then the two status setters run (dispatching to
the still-empty subscriber list) and the mutated object is visible
through the flat map. -/
def NoonLine.fromJsonObject (r : Registry) (space : PyVal) (json : PyVal) :
    Except PyErr (Registry × LineState × List Dispatch) :=
  match json with
  | .dict entries =>
    let guid := dictGetD entries (.str "guid")
    let name := dictGetD entries (.str "displayName")
    if guid.isNone || name.isNone then .error .noonInvalidJsonError
    else do
      let l0 : LineState := {
        guid := guid, name := name, subscribers := [],
        lineState := .none, dimmingLevel := .none, parentSpace := space }
      let r ← Noon.registerEntity r (.line l0)
      let (l1, ds1) := NoonLine.setLineState l0 (dictGetD entries (.str "lineState"))
      let (l2, ds2) := NoonLine.setDimmingLevel l1 (dictGetD entries (.str "dimmingLevel"))
      let all ← pyAssocSet r.allEntities l2.guid (.line l2)
      .ok ({ r with allEntities := all }, l2, ds1 ++ ds2)
  | _ => .error .noonInvalidParametersError

/-- The scenes loop of `NoonSpace.fromJsonObject`:
`scenesMap[thisScene.guid] = thisScene`, with the stored scene object
represented by its name. -/
def NoonSpace.buildScenes (r : Registry) (space : PyVal) :
    List PyVal → List (PyVal × PyVal) →
    Except PyErr (Registry × List (PyVal × PyVal))
  | [], acc => .ok (r, acc)
  | item :: rest, acc => do
    let (r', sc) ← NoonScene.fromJsonObject r space item
    let acc' ← pyAssocSet acc sc.guid sc.name
    NoonSpace.buildScenes r' space rest acc'

/-- The devices loop of `NoonSpace.fromJsonObject`.  The source stores
the stale `thisScene` object on line 279; the store is dead code
because `NoonDevice.fromJsonObject` always raises (claim C4), so the
model records the device's name without affecting any claim. -/
def NoonSpace.buildDevices (r : Registry) :
    List PyVal → List (PyVal × PyVal) →
    Except PyErr (Registry × List (PyVal × PyVal))
  | [], acc => .ok (r, acc)
  | item :: rest, acc => do
    let (r', d) ← NoonDevice.fromJsonObject r item
    let acc' ← pyAssocSet acc d.guid d.name
    NoonSpace.buildDevices r' rest acc'

/-- The lines loop of `NoonSpace.fromJsonObject`:
`linesMap[thisLine.guid] = thisLine`, with the stored line object
represented by its name. -/
def NoonSpace.buildLines (r : Registry) (space : PyVal) :
    List PyVal → List (PyVal × PyVal) →
    Except PyErr (Registry × List (PyVal × PyVal))
  | [], acc => .ok (r, acc)
  | item :: rest, acc => do
    let (r', l, _) ← NoonLine.fromJsonObject r space item
    let acc' ← pyAssocSet acc l.guid l.name
    NoonSpace.buildLines r' space rest acc'

/-- `NoonSpace.fromJsonObject`: requires a dict payload with non-None
`guid` and `name`; constructs the space (the constructor registers it
and then runs the two status setters with their default `None`
arguments), builds scenes, devices and lines in that order, then
applies `lightsOn` and `activeScene` from the payload
(`json.get("activeScene", {}).get("guid", None)` requires the present
value to be a dict).  The final space state is stored back into the
flat map and the dispatches of the status setters are returned. -/
def NoonSpace.fromJsonObject (r : Registry) (json : PyVal) :
    Except PyErr (Registry × SpaceState × List Dispatch) :=
  match json with
  | .dict entries =>
    let guid := dictGetD entries (.str "guid")
    let name := dictGetD entries (.str "name")
    if guid.isNone || name.isNone then .error .noonInvalidJsonError
    else do
      let s0 : SpaceState := {
        guid := guid, name := name, subscribers := [],
        activeScene := .none, lightsOn := .none,
        scenes := [], devices := [], lines := [] }
      let r ← Noon.registerEntity r (.space s0)
      let (s0, _) ← NoonSpace.setActiveScene s0 .none
      let (s0, _) := NoonSpace.setLightsOn s0 .none
      let sceneItems ← pyIter ((dictGet? entries (.str "scenes")).getD (.list []))
      let (r, scenesMap) ← NoonSpace.buildScenes r guid sceneItems []
      let s0 := { s0 with scenes := scenesMap }
      let deviceItems ← pyIter ((dictGet? entries (.str "devices")).getD (.list []))
      let (r, devicesMap) ← NoonSpace.buildDevices r deviceItems []
      let s0 := { s0 with devices := devicesMap }
      let lineItems ← pyIter ((dictGet? entries (.str "lines")).getD (.list []))
      let (r, linesMap) ← NoonSpace.buildLines r guid lineItems []
      let s0 := { s0 with lines := linesMap }
      let lightsOn := dictGetD entries (.str "lightsOn")
      let activeScene ←
        match (dictGet? entries (.str "activeScene")).getD (.dict []) with
        | .dict aes => .ok (dictGetD aes (.str "guid"))
        | _ => .error .attributeError
      let (s1, dsA) := NoonSpace.setLightsOn s0 lightsOn
      let (s2, dsB) ← NoonSpace.setActiveScene s1 activeScene
      let all ← pyAssocSet r.allEntities s2.guid (.space s2)
      .ok ({ r with allEntities := all }, s2, dsA ++ dsB)
  | _ => .error .noonInvalidParametersError

/-- A class object among the embedded values. -/
def isTypeObj : PyVal → Bool
  | .typeObj _ => true
  | _ => false

/-- A demo space used to exercise the setters on concrete inputs. -/
def demoSpace : SpaceState :=
  { guid := .str "s1", name := .str "Kitchen", subscribers := [7],
    activeScene := .none, lightsOn := .none,
    scenes := [], devices := [], lines := [] }

/-- A demo line used to exercise the setters on concrete inputs. -/
def demoLine : LineState :=
  { guid := .str "l1", name := .str "Main", subscribers := [3],
    lineState := .none, dimmingLevel := .none, parentSpace := .str "s1" }

/-- The four concrete entity kinds. -/
inductive EntityKind where
  | space
  | device
  | line
  | scene
deriving DecidableEq, Repr

/-- The concrete kind of a registered entity. -/
def EntityState.kind : EntityState → EntityKind
  | .space _ => .space
  | .line _ => .line
  | .device _ => .device
  | .scene _ => .scene

/-- The kind-specific registry map an entity of the given kind is
inserted into. -/
def Registry.kindMap (r : Registry) : EntityKind → List (PyVal × EntityState)
  | .space => r.spaces
  | .device => r.devices
  | .line => r.lines
  | .scene => r.scenes

/-- First of two demo scenes sharing the guid "g1". -/
def C3sceneFirst : EntityState :=
  .scene { guid := .str "g1", name := .str "First", subscribers := [],
           parentSpace := .str "sp" }

/-- Second demo scene with the same guid "g1" but another name. -/
def C3sceneSecond : EntityState :=
  .scene { guid := .str "g1", name := .str "Second", subscribers := [],
           parentSpace := .str "sp" }

/-- Registering the two same-guid demo scenes, in order, into an empty
registry. -/
def C3registerBoth : Except PyErr Registry := do
  let r1 ← Noon.registerEntity Registry.empty C3sceneFirst
  Noon.registerEntity r1 C3sceneSecond

/-- A login/renewal response carries a usable token: it is a dict
whose `token` entry is present and not None.  This renders the spec's
"any response lacking a token is an authentication failure". -/
def hasToken (v : PyVal) : Bool :=
  match v with
  | .dict entries => !(dictGetD entries (.str "token")).isNone
  | _ => false

/-- An endpoint-directory response parses to the expected mapping: a
dict whose `endpoints` entry is itself a dict. -/
def dexOk (v : PyVal) : Bool :=
  match v with
  | .dict entries =>
    match dictGetD entries (.str "endpoints") with
    | .dict _ => true
    | _ => false
  | _ => false

/-- The lifetime fields of a login/renewal response are Python ints
(or absent, defaulting to 0), so the expiry arithmetic itself cannot
raise. -/
def lifetimeFieldsOk (v : PyVal) : Bool :=
  match v with
  | .dict entries =>
    (match (dictGet? entries (.str "lifetime")).getD (.int 0) with
     | .int _ => true
     | .bool _ => true
     | _ => false)
    && (match (dictGet? entries (.str "renewLifetime")).getD (.int 0) with
        | .int _ => true
        | .bool _ => true
        | _ => false)
  | _ => true

/-- A demo token-lifecycle state: a cached token valid until instant
100 and renewable until instant 200. -/
def C1state : AuthState :=
  { token := .str "cached-token",
    loginResponse := .dict [(.str "token", .str "cached-token")],
    tokenValidUntil := 100, tokenRenewValidUntil := 200,
    username := .str "user@example.com", password := .str "hunter2",
    endpoints := [] }

/-- A network stub answering every post with a token response and the
endpoint fetch with a well-formed directory. -/
def C1resp : NetRequest → PyVal
  | .post _ _ => .dict [(.str "token", .str "fresh-token"),
      (.str "lifetime", .int 3600), (.str "renewLifetime", .int 86400)]
  | .get _ => .dict [(.str "endpoints", .dict [(.str "query", .str "https://q")])]

/-- A network stub whose every answer is a dict without a token. -/
def C10respNoToken : NetRequest → PyVal :=
  fun _ => .dict [(.str "error", .str "bad credentials")]

/-- A registry holding one space under guid "s1" and one line under
"l1", as after a small discovery. -/
def C9registry : Registry :=
  { allEntities := [(.str "s1", .space demoSpace), (.str "l1", .line demoLine)],
    spaces := [(.str "s1", .space demoSpace)],
    devices := [],
    lines := [(.str "l1", .line demoLine)],
    scenes := [] }

/-- The invariant claimed for spaces: the active scene, when not None,
resolves within the space's own scene map. -/
def sceneInvariant (s : SpaceState) : Prop :=
  s.activeScene = .none
  ∨ ∃ nm, pyAssocGet s.scenes s.activeScene = .ok (Option.some nm)

/-- A demo space holding two scenes, with scene "A" active. -/
def demoSpaceScenes : SpaceState :=
  { guid := .str "s2", name := .str "Den", subscribers := [5],
    activeScene := .str "A", lightsOn := .none,
    scenes := [(.str "A", .str "Bright"), (.str "B", .str "Dim")],
    devices := [], lines := [] }

mutual

/-- A value producible by parsing JSON text: class objects never
occur, at any nesting depth. -/
def jsonLike : PyVal → Bool
  | .none => true
  | .bool _ => true
  | .int _ => true
  | .str _ => true
  | .list xs => jsonLikeList xs
  | .dict es => jsonLikeDict es
  | .typeObj _ => false
termination_by v => sizeOf v

/-- Every element is JSON-producible. -/
def jsonLikeList : List PyVal → Bool
  | [] => true
  | x :: xs => jsonLike x && jsonLikeList xs
termination_by xs => sizeOf xs

/-- Every key and value is JSON-producible. -/
def jsonLikeDict : List (PyVal × PyVal) → Bool
  | [] => true
  | (k, v) :: rest => jsonLike k && jsonLike v && jsonLikeDict rest
termination_by es => sizeOf es

end

/-- A well-formed device discovery payload: guid and displayName
present, the line reference in its structured form. -/
def C4devicePayload : List (PyVal × PyVal) :=
  [(.str "guid", .str "d1"), (.str "displayName", .str "Desk Switch"),
   (.str "line", .dict [(.str "guid", .str "l9")])]

/-- A space discovery payload containing one device. -/
def C4spacePayload : List (PyVal × PyVal) :=
  [(.str "guid", .str "s9"), (.str "name", .str "Office"),
   (.str "devices", .list [.dict C4devicePayload])]

/-- Bind of a successful exception-carrying computation. -/
@[simp]
theorem exceptBindOk {α β : Type} (a : α) (f : α → Except PyErr β) :
    (Except.ok a >>= f) = f a := rfl

/-- Bind of a failed exception-carrying computation. -/
@[simp]
theorem exceptBindErr {α β : Type} (e : PyErr) (f : α → Except PyErr β) :
    ((Except.error e : Except PyErr α) >>= f) = Except.error e := rfl

/-- Dispatching an event notifies exactly the subscribers, in order. -/
theorem dispatchEvent_map_subscriber (subs : List Nat) (ev : NoonEventTy)
    (ps : List (PyVal × PyVal)) :
    (dispatchEvent subs ev ps).map Dispatch.subscriber = subs := by
  simp [dispatchEvent, Function.comp_def]

/-- Every notification produced by a dispatch carries the dispatched
event and params. -/
theorem dispatchEvent_mem (subs : List Nat) (ev : NoonEventTy)
    (ps : List (PyVal × PyVal)) :
    ∀ d ∈ dispatchEvent subs ev ps, d.event = ev ∧ d.params = ps := by
  intro d hd
  simp only [dispatchEvent, List.mem_map] at hd
  obtain ⟨sub, _, rfl⟩ := hd
  exact ⟨rfl, rfl⟩

/-- C6: for every mutable entity property setter (`NoonSpace.lightsOn`,
`NoonLine.lineState`, `NoonLine.dimmingLevel`) and every prior state,
the setter always stores the new value; when the new value differs
(Python `==`) from the previous one it dispatches the entity's change
event to every subscriber exactly once, in order, with the new value in
the payload; when the new value equals the value already held, nothing
is dispatched. -/
theorem C6_setter_store_and_dispatch (s : SpaceState) (l : LineState)
    (v : PyVal) :
    ((NoonSpace.setLightsOn s v).1.lightsOn = v
      ∧ (pyEq s.lightsOn v = true → (NoonSpace.setLightsOn s v).2 = [])
      ∧ (pyEq s.lightsOn v = false →
          ((NoonSpace.setLightsOn s v).2.map Dispatch.subscriber = s.subscribers
            ∧ ∀ d ∈ (NoonSpace.setLightsOn s v).2,
                d.event = NoonEventTy.lightsOnChanged
                  ∧ d.params = [(PyVal.str "lightsOn", v)])))
    ∧ ((NoonLine.setLineState l v).1.lineState = v
      ∧ (pyEq l.lineState v = true → (NoonLine.setLineState l v).2 = [])
      ∧ (pyEq l.lineState v = false →
          ((NoonLine.setLineState l v).2.map Dispatch.subscriber = l.subscribers
            ∧ ∀ d ∈ (NoonLine.setLineState l v).2,
                d.event = NoonEventTy.lineStateChanged
                  ∧ d.params = [(PyVal.str "lineState", v)])))
    ∧ ((NoonLine.setDimmingLevel l v).1.dimmingLevel = v
      ∧ (pyEq l.dimmingLevel v = true → (NoonLine.setDimmingLevel l v).2 = [])
      ∧ (pyEq l.dimmingLevel v = false →
          ((NoonLine.setDimmingLevel l v).2.map Dispatch.subscriber = l.subscribers
            ∧ ∀ d ∈ (NoonLine.setDimmingLevel l v).2,
                d.event = NoonEventTy.dimLevelChanged
                  ∧ d.params = [(PyVal.str "dimLevel", v)]))) := by
  refine ⟨⟨rfl, ?_, ?_⟩, ⟨rfl, ?_, ?_⟩, ⟨rfl, ?_, ?_⟩⟩ <;> intro h
  · simp [NoonSpace.setLightsOn, h]
  · exact ⟨by simp [NoonSpace.setLightsOn, h, dispatchEvent_map_subscriber],
      by simpa [NoonSpace.setLightsOn, h] using
        dispatchEvent_mem s.subscribers NoonEventTy.lightsOnChanged
          [(PyVal.str "lightsOn", v)]⟩
  · simp [NoonLine.setLineState, h]
  · exact ⟨by simp [NoonLine.setLineState, h, dispatchEvent_map_subscriber],
      by simpa [NoonLine.setLineState, h] using
        dispatchEvent_mem l.subscribers NoonEventTy.lineStateChanged
          [(PyVal.str "lineState", v)]⟩
  · simp [NoonLine.setDimmingLevel, h]
  · exact ⟨by simp [NoonLine.setDimmingLevel, h, dispatchEvent_map_subscriber],
      by simpa [NoonLine.setDimmingLevel, h] using
        dispatchEvent_mem l.subscribers NoonEventTy.dimLevelChanged
          [(PyVal.str "dimLevel", v)]⟩

/-- C6 witness: on the demo space, setting `lightsOn` from None to True
notifies the single subscriber, and replaying None dispatches
nothing. -/
theorem C6_setter_store_and_dispatch_witness :
    (NoonSpace.setLightsOn demoSpace (.bool true)).1.lightsOn = PyVal.bool true
    ∧ (NoonSpace.setLightsOn demoSpace (.bool true)).2.map Dispatch.subscriber = [7]
    ∧ (NoonSpace.setLightsOn demoSpace .none).2 = [] := by
  have h1 := C6_setter_store_and_dispatch demoSpace demoLine (.bool true)
  have h2 := C6_setter_store_and_dispatch demoSpace demoLine .none
  exact ⟨h1.1.1, (h1.1.2.2 (by simp [demoSpace, pyEq])).1,
    h2.1.2.1 (by simp [demoSpace, pyEq])⟩

/-- C5 counterexample: the claim says the raw string "on" is coerced to
boolean True before storage; the code contains no coercion, so the
stored value is the string "on" itself. -/
theorem C5_lineState_no_coercion_counterexample :
    (NoonLine.setLineState demoLine (.str "on")).1.lineState = PyVal.str "on"
    ∧ (NoonLine.setLineState demoLine (.str "on")).1.lineState ≠ PyVal.bool true := by
  exact ⟨rfl, fun h => PyVal.noConfusion h⟩

/-- C5 amended: the `lineState` setter applies no coercion — every
input, the strings "on" and "off" and the booleans included, is stored
exactly as given — and the raw previous and new values are compared
(Python `==`) to decide whether `LINE_STATE_CHANGED` is dispatched. -/
theorem C5_lineState_stores_raw (l : LineState) (v : PyVal) :
    (NoonLine.setLineState l v).1.lineState = v
    ∧ (pyEq l.lineState v = true → (NoonLine.setLineState l v).2 = [])
    ∧ (pyEq l.lineState v = false → (NoonLine.setLineState l v).2 =
        dispatchEvent l.subscribers .lineStateChanged [(.str "lineState", v)]) := by
  refine ⟨rfl, fun h => ?_, fun h => ?_⟩
  · simp [NoonLine.setLineState, h]
  · simp [NoonLine.setLineState, h]

/-- C5 witness: on the demo line the string "off" is stored as the
string "off" and the one subscriber is notified of the change. -/
theorem C5_lineState_stores_raw_witness :
    (NoonLine.setLineState demoLine (.str "off")).1.lineState = PyVal.str "off"
    ∧ (NoonLine.setLineState demoLine (.str "off")).2 =
        dispatchEvent [3] .lineStateChanged [(.str "lineState", .str "off")] := by
  have h := C5_lineState_stores_raw demoLine (.str "off")
  exact ⟨h.1, h.2.2 (by simp [demoLine, pyEq])⟩

/-- C2 evaluation at the claim's own scenario inputs: with the last
connect attempt at instant 0, a close at instant 5 (elapsed 5 s) makes
the code call `connect()` again, and a close at instant 60 (elapsed
60 s) makes it raise the fatal `NoonException` — in both cases the
opposite of the claim (and of the comment in the source); the
unsubscribed flag is cleared in both cases. -/
theorem C2_disconnect_policy_inverted :
    Noon.websocketDisconnected 0 5 = (false, DisconnectOutcome.callConnect)
    ∧ Noon.websocketDisconnected 0 60 = (false, DisconnectOutcome.raiseFatal) := by
  constructor <;> simp [Noon.websocketDisconnected]

/-- C7 counterexample: setting `activeScene` to the guid "A", which is
present in the demo space's scene map but already active, dispatches
nothing — the claim as stated says every set to a present guid
dispatches `SCENE_CHANGED` with that guid. -/
theorem C7_activeScene_idempotent_counterexample :
    NoonSpace.setActiveScene demoSpaceScenes (.str "A") =
      .ok (demoSpaceScenes, []) := by
  simp [NoonSpace.setActiveScene, NoonSpace.normalizeSceneValue,
    demoSpaceScenes, pyAssocGet, pyHashable, pyEq, PyVal.isNone]

/-- C7 amended: the activeScene setter preserves the invariant that a
non-None active scene resolves in the space's own scene map; a value
normalizing to a guid present in the map is stored, and `SCENE_CHANGED`
with that guid is dispatched exactly when it differs from the prior
value; a value normalizing to a guid absent from the map is rejected
with the prior value retained and nothing dispatched. -/
theorem C7_activeScene_guarded (s : SpaceState) (v : PyVal) :
    (∀ s' ds, NoonSpace.setActiveScene s v = .ok (s', ds) →
        sceneInvariant s → sceneInvariant s')
    ∧ (∀ nm,
        pyAssocGet s.scenes (NoonSpace.normalizeSceneValue v) =
          .ok (Option.some nm) →
        (pyEq s.activeScene (NoonSpace.normalizeSceneValue v) = false →
          NoonSpace.setActiveScene s v =
            .ok ({ s with activeScene := NoonSpace.normalizeSceneValue v },
                 dispatchEvent s.subscribers .sceneChanged
                   [(.str "sceneId", NoonSpace.normalizeSceneValue v)]))
        ∧ (pyEq s.activeScene (NoonSpace.normalizeSceneValue v) = true →
          NoonSpace.setActiveScene s v =
            .ok ({ s with activeScene := NoonSpace.normalizeSceneValue v }, [])))
    ∧ (pyAssocGet s.scenes (NoonSpace.normalizeSceneValue v) = .ok Option.none →
        NoonSpace.setActiveScene s v = .ok (s, [])) := by
  refine ⟨?_, ?_, ?_⟩
  · intro s' ds hok hinv
    cases hl : pyAssocGet s.scenes (NoonSpace.normalizeSceneValue v) with
    | error e => simp [NoonSpace.setActiveScene, hl] at hok
    | ok o =>
      cases o with
      | none =>
        simp [NoonSpace.setActiveScene, hl] at hok
        exact hok.1 ▸ hinv
      | some nm =>
        simp [NoonSpace.setActiveScene, hl] at hok
        refine Or.inr ⟨nm, ?_⟩
        rw [← hok.1]
        simpa using hl
  · intro nm hl
    constructor <;> intro hne <;>
      simp [NoonSpace.setActiveScene, hl, hne]
  · intro hl
    simp [NoonSpace.setActiveScene, hl]

/-- C7 witness: on the demo space, setting to the structured value
whose guid entry is the present-but-inactive scene "B" stores "B" and
dispatches `SCENE_CHANGED` to the subscriber, while setting to the
absent guid "C" leaves the space untouched with no dispatch. -/
theorem C7_activeScene_guarded_witness :
    NoonSpace.setActiveScene demoSpaceScenes (.dict [(.str "guid", .str "B")]) =
      .ok ({ demoSpaceScenes with activeScene := .str "B" },
           dispatchEvent [5] .sceneChanged [(.str "sceneId", .str "B")])
    ∧ NoonSpace.setActiveScene demoSpaceScenes (.str "C") =
        .ok (demoSpaceScenes, []) := by
  have hB := C7_activeScene_guarded demoSpaceScenes (.dict [(.str "guid", .str "B")])
  have hC := C7_activeScene_guarded demoSpaceScenes (.str "C")
  constructor
  · have := (hB.2.1 (.str "Dim")
      (by simp [NoonSpace.normalizeSceneValue, dictGetD, pyEq, PyVal.isNone,
        demoSpaceScenes, pyAssocGet, pyHashable])).1
      (by simp [NoonSpace.normalizeSceneValue, dictGetD, pyEq, PyVal.isNone,
        demoSpaceScenes])
    simpa [NoonSpace.normalizeSceneValue, dictGetD, pyEq, PyVal.isNone,
      demoSpaceScenes] using this
  · exact hC.2.2
      (by simp [NoonSpace.normalizeSceneValue, demoSpaceScenes, pyAssocGet,
        pyHashable, pyEq])

/-- Mapping over a successful exception-carrying computation. -/
@[simp]
theorem exceptMapOk {α β : Type} (f : α → β) (a : α) :
    (Except.ok a : Except PyErr α).map f = .ok (f a) := rfl

/-- Mapping over a failed exception-carrying computation. -/
@[simp]
theorem exceptMapErr {α β : Type} (f : α → β) (e : PyErr) :
    (Except.error e : Except PyErr α).map f = .error e := rfl

/-- Python `==` is reflexive on hashable values. -/
theorem pyEq_refl_of_hashable (k : PyVal) (hk : pyHashable k = true) :
    pyEq k k = true := by
  cases k with
  | none => simp [pyEq]
  | bool b => simp [pyEq]
  | int n => simp [pyEq]
  | str s => simp [pyEq]
  | typeObj t => simp [pyEq]
  | list xs => simp [pyHashable] at hk
  | dict es => simp [pyHashable] at hk

/-- After a dict assignment, a lookup of the assigned key finds the
assigned value. -/
theorem findSome_setCore_self {α : Type} (m : List (PyVal × α)) (k : PyVal)
    (v : α) (hrefl : pyEq k k = true) :
    (pyAssocSetCore m k v).findSome?
      (fun kv => if pyEq k kv.1 then some kv.2 else Option.none) = some v := by
  induction m with
  | nil => simp [pyAssocSetCore, hrefl]
  | cons kv rest ih =>
    obtain ⟨k2, v2⟩ := kv
    by_cases h : pyEq k k2
    · simp [pyAssocSetCore, h]
    · simp [pyAssocSetCore, h, ih]

/-- Hashable-key form of the set-then-get law. -/
theorem pyAssocGet_setCore_self {α : Type} (m : List (PyVal × α)) (k : PyVal)
    (v : α) (hk : pyHashable k = true) :
    pyAssocGet (pyAssocSetCore m k v) k = .ok (Option.some v) := by
  simp [pyAssocGet, hk, findSome_setCore_self m k v (pyEq_refl_of_hashable k hk)]

/-- C3 counterexample: after registering the two same-guid demo scenes
in order, the flat map resolves "g1" to the second-registered entity
(named "Second") while the kind-specific scene map still holds the
first (named "First"); the claim as stated says both maps still point
at the first-registered entity. -/
theorem C3_flat_map_overwritten_counterexample :
    (C3registerBoth.map fun r =>
        (pyAssocGet r.allEntities (.str "g1"), pyAssocGet r.scenes (.str "g1"))) =
      .ok (.ok (Option.some C3sceneSecond), .ok (Option.some C3sceneFirst))
    ∧ C3sceneFirst.name = .str "First"
    ∧ C3sceneSecond.name = .str "Second" := by
  refine ⟨?_, rfl, rfl⟩
  simp [C3registerBoth, C3sceneFirst, C3sceneSecond, Noon.registerEntity,
    Registry.empty, pyAssocSet, pyAssocSetCore, pyAssocGet, pyHashable,
    EntityState.guid, EntityState.name, pyEq]

/-- C3 amended: registering a second entity under a guid already held
by a first entity of the same kind succeeds silently — no
`NoonDuplicateIdError` is ever raised, and the kind-specific map still
points at the first-registered entity — but the flat guid map used for
change routing is overwritten and afterwards resolves the guid to the
second-registered entity, leaving the first unreachable there. -/
theorem C3_duplicate_registration (r0 : Registry) (e1 e2 : EntityState)
    (hg : e2.guid = e1.guid) (hk : pyHashable e1.guid = true)
    (hkind : e1.kind = e2.kind)
    (hfresh : pyAssocGet (r0.kindMap e1.kind) e1.guid = .ok Option.none) :
    ((do
        let r1 ← Noon.registerEntity r0 e1
        Noon.registerEntity r1 e2 : Except PyErr Registry).map fun r2 =>
        (pyAssocGet (r2.kindMap e1.kind) e1.guid,
         pyAssocGet r2.allEntities e1.guid)) =
      .ok (.ok (Option.some e1), .ok (Option.some e2)) := by
  cases e1 <;> cases e2 <;>
    first
    | (simp only [EntityState.kind] at hkind; exact absurd hkind (by decide))
    | (simp only [EntityState.guid, EntityState.kind, Registry.kindMap]
        at hg hk hfresh ⊢
       simp [Noon.registerEntity, pyAssocSet, Registry.kindMap,
         EntityState.guid, EntityState.kind, hk, hg, hfresh,
         pyAssocGet_setCore_self, Bool.and_false])

/-- C3 witness: the amended statement instantiated on the two demo
scenes registered into an empty registry. -/
theorem C3_duplicate_registration_witness :
    ((do
        let r1 ← Noon.registerEntity Registry.empty C3sceneFirst
        Noon.registerEntity r1 C3sceneSecond : Except PyErr Registry).map
          fun r2 =>
        (pyAssocGet (r2.kindMap C3sceneFirst.kind) C3sceneFirst.guid,
         pyAssocGet r2.allEntities C3sceneFirst.guid)) =
      .ok (.ok (Option.some C3sceneFirst), .ok (Option.some C3sceneSecond)) :=
  C3_duplicate_registration Registry.empty C3sceneFirst C3sceneSecond rfl rfl rfl
    (by simp [Registry.kindMap, Registry.empty, pyAssocGet, pyHashable,
      EntityState.kind, EntityState.guid, C3sceneFirst])

/-- C1 evaluation of `authenticate()` in each of the three windows of
the demo state (token valid until instant 100, renewable until 200):
at instant 50 the cached token is used with no network request, as the
claim says; but at instant 150 — inside the claimed
lightweight-renewal window — the code issues the full login request
carrying the fresh credentials, and at instant 250 — past
`tokenRenewValidUntil`, where the claim requires a full login — it
issues the renewal request carrying the prior login response payload:
the two non-cached branches are swapped relative to the claim. -/
theorem C1_authenticate_windows_swapped :
    Noon.authenticate C1resp 50 C1state = .ok (C1state, [])
    ∧ (Noon.authenticate C1resp 150 C1state).map (fun p => p.2) =
        .ok [.post .loginUrl (.dict [(.str "email", .str "user@example.com"),
              (.str "password", .str "hunter2")]), .get .dexUrl]
    ∧ (Noon.authenticate C1resp 250 C1state).map (fun p => p.2) =
        .ok [.post .renewTokenUrl (.dict [(.str "token", .str "cached-token")]),
             .get .dexUrl] := by
  refine ⟨?_, ?_, ?_⟩ <;>
    simp [Noon.authenticate, Noon.authRequest, Noon.refreshEndpoints, C1state,
      C1resp, PyVal.isNone, dictGetD, dictGet?, pyEq, pySubInt]

/-- C8: whenever `authenticate()` actually performs the exchange (the
cached-token fast path does not apply) and the response to the issued
request is a dict carrying a non-None token together with integer
`lifetime` and `renewLifetime` fields, and the endpoint fetch is
well-formed, the stored expiries are `now + (lifetime − 30)` and
`now + (renewLifetime − 30)`. -/
theorem C8_token_expiry_margin (resp : NetRequest → PyVal) (now : Int)
    (st : AuthState) (entries dexEntries eps : List (PyVal × PyVal))
    (tok : PyVal) (lt rlt : Int)
    (hcache : ¬(st.token.isNone = false ∧ now < st.tokenValidUntil))
    (hresp : resp (Noon.authRequest now st) = .dict entries)
    (htok : dictGetD entries (.str "token") = tok)
    (htokSome : tok.isNone = false)
    (hlt : dictGet? entries (.str "lifetime") = some (.int lt))
    (hrlt : dictGet? entries (.str "renewLifetime") = some (.int rlt))
    (hdex : resp (.get .dexUrl) = .dict dexEntries)
    (heps : dictGetD dexEntries (.str "endpoints") = .dict eps) :
    Noon.authenticate resp now st =
      .ok ({ st with
              loginResponse := .dict entries,
              token := tok,
              tokenValidUntil := now + (lt - 30),
              tokenRenewValidUntil := now + (rlt - 30),
              endpoints := eps },
           [Noon.authRequest now st, .get .dexUrl]) := by
  simp [Noon.authenticate, hcache, hresp, htok, htokSome, hlt, hrlt,
    Noon.refreshEndpoints, hdex, heps, pySubInt]

/-- C8 witness: with lifetime 3600 and renewLifetime 86400 received at
instant 250, the stored expiries are 250 + 3570 = 3820 and
250 + 86370 = 86620. -/
theorem C8_token_expiry_margin_witness :
    (Noon.authenticate C1resp 250 C1state).map
        (fun p => (p.1.tokenValidUntil, p.1.tokenRenewValidUntil)) =
      .ok (3820, 86620) := by
  have h := C8_token_expiry_margin C1resp 250 C1state
    [(.str "token", .str "fresh-token"), (.str "lifetime", .int 3600),
     (.str "renewLifetime", .int 86400)]
    [(.str "endpoints", .dict [(.str "query", .str "https://q")])]
    [(.str "query", .str "https://q")]
    (.str "fresh-token") 3600 86400
    (by simp [C1state, PyVal.isNone])
    (by simp [Noon.authRequest, C1state, C1resp])
    (by simp [dictGetD, pyEq]) rfl
    (by simp [dictGet?, pyEq]) (by simp [dictGet?, pyEq])
    (by simp [C1resp]) (by simp [dictGetD, pyEq])
  rw [h]
  norm_num

/-- The endpoint refresh can only fail with
`NoonAuthenticationError`, and does so precisely when the directory
response is not the expected mapping. -/
theorem refreshEndpointsErrorIff (resp : NetRequest → PyVal) (st : AuthState)
    (e : PyErr) :
    Noon.refreshEndpoints resp st = .error e
    ↔ (e = .noonAuthenticationError ∧ dexOk (resp (.get .dexUrl)) = false) := by
  cases h : resp (.get .dexUrl) with
  | dict dentries =>
    cases he : dictGetD dentries (.str "endpoints") <;>
      simp [Noon.refreshEndpoints, dexOk, h, he, eq_comm]
  | none => simp [Noon.refreshEndpoints, dexOk, h, eq_comm]
  | bool c => simp [Noon.refreshEndpoints, dexOk, h, eq_comm]
  | int n => simp [Noon.refreshEndpoints, dexOk, h, eq_comm]
  | str s => simp [Noon.refreshEndpoints, dexOk, h, eq_comm]
  | list xs => simp [Noon.refreshEndpoints, dexOk, h, eq_comm]
  | typeObj t => simp [Noon.refreshEndpoints, dexOk, h, eq_comm]

/-- C10: with the cached-token fast path inapplicable and the response
lifetime fields well-typed, `authenticate()` results in
`NoonAuthenticationError` precisely when the posted login/renewal
response lacks a token, or the token is accepted but the fetched
endpoint-directory response does not parse to the expected mapping; in
either case the failure is the call's result, surfaced to the
caller. -/
theorem C10_auth_error_iff (resp : NetRequest → PyVal) (now : Int)
    (st : AuthState)
    (hcache : ¬(st.token.isNone = false ∧ now < st.tokenValidUntil))
    (hlife : lifetimeFieldsOk (resp (Noon.authRequest now st)) = true) :
    Noon.authenticate resp now st = .error .noonAuthenticationError
    ↔ (hasToken (resp (Noon.authRequest now st)) = false
       ∨ (hasToken (resp (Noon.authRequest now st)) = true
          ∧ dexOk (resp (.get .dexUrl)) = false)) := by
  simp only [Noon.authenticate]
  rw [if_neg hcache]
  cases hr : resp (Noon.authRequest now st) with
  | dict entries =>
    rw [hr] at hlife
    simp only [lifetimeFieldsOk, Bool.and_eq_true] at hlife
    obtain ⟨h1, h2⟩ := hlife
    cases ht : (dictGetD entries (.str "token")).isNone with
    | true => simp [ht, hasToken, hr]
    | false =>
      obtain ⟨a, ha⟩ : ∃ a,
          pySubInt ((dictGet? entries (.str "lifetime")).getD (.int 0)) 30 =
            .ok a := by
        cases hv : (dictGet? entries (.str "lifetime")).getD (.int 0) with
        | int m => exact ⟨m - 30, rfl⟩
        | bool b => exact ⟨(if b then (1 : Int) else 0) - 30, rfl⟩
        | none => rw [hv] at h1; cases h1
        | str s => rw [hv] at h1; cases h1
        | list xs => rw [hv] at h1; cases h1
        | dict es => rw [hv] at h1; cases h1
        | typeObj t => rw [hv] at h1; cases h1
      obtain ⟨b, hb⟩ : ∃ b,
          pySubInt ((dictGet? entries (.str "renewLifetime")).getD (.int 0)) 30 =
            .ok b := by
        cases hv : (dictGet? entries (.str "renewLifetime")).getD (.int 0) with
        | int m => exact ⟨m - 30, rfl⟩
        | bool c => exact ⟨(if c then (1 : Int) else 0) - 30, rfl⟩
        | none => rw [hv] at h2; cases h2
        | str s => rw [hv] at h2; cases h2
        | list xs => rw [hv] at h2; cases h2
        | dict es => rw [hv] at h2; cases h2
        | typeObj t => rw [hv] at h2; cases h2
      cases hre : Noon.refreshEndpoints resp
          { st with
            loginResponse := .dict entries,
            token := dictGetD entries (.str "token"),
            tokenValidUntil := now + a,
            tokenRenewValidUntil := now + b } with
      | ok st2 =>
        have hdex := refreshEndpointsErrorIff resp
          { st with
            loginResponse := .dict entries,
            token := dictGetD entries (.str "token"),
            tokenValidUntil := now + a,
            tokenRenewValidUntil := now + b } .noonAuthenticationError
        rw [hre] at hdex
        simp at hdex
        simp [ht, ha, hb, hre, hasToken, hr, hdex]
      | error e =>
        have hdex := (refreshEndpointsErrorIff resp
          { st with
            loginResponse := .dict entries,
            token := dictGetD entries (.str "token"),
            tokenValidUntil := now + a,
            tokenRenewValidUntil := now + b } e).mp hre
        obtain ⟨rfl, hdexF⟩ := hdex
        simp [ht, ha, hb, hre, hasToken, hr, hdexF]
  | none => simp [hr, hasToken]
  | bool c => simp [hr, hasToken]
  | int n => simp [hr, hasToken]
  | str s => simp [hr, hasToken]
  | list xs => simp [hr, hasToken]
  | typeObj t => simp [hr, hasToken]

/-- C10 witness: with a cache-expired state and a stub whose answers
never carry a token, authenticate() surfaces the authentication
error. -/
theorem C10_auth_error_iff_witness :
    Noon.authenticate C10respNoToken 250 C1state =
      .error .noonAuthenticationError := by
  refine (C10_auth_error_iff C10respNoToken 250 C1state ?_ ?_).mpr ?_
  · simp [C1state]
  · simp [C10respNoToken, lifetimeFieldsOk, dictGet?, pyEq]
  · exact Or.inl (by simp [C10respNoToken, hasToken, dictGetD, pyEq, PyVal.isNone])

/-- Looking a key up in a JSON-producible dict yields a
JSON-producible value (the default None included). -/
theorem jsonLike_dictGetD (es : List (PyVal × PyVal)) (k : PyVal)
    (h : jsonLikeDict es = true) : jsonLike (dictGetD es k) = true := by
  induction es with
  | nil => simp [dictGetD, jsonLike]
  | cons kv rest ih =>
    obtain ⟨k2, v2⟩ := kv
    simp only [jsonLikeDict, Bool.and_eq_true] at h
    by_cases hk : pyEq k k2
    · simpa [dictGetD, hk] using h.1.2
    · simp only [dictGetD, hk, if_false, Bool.false_eq_true]
      exact ih h.2

/-- JSON-producible values are never class objects. -/
theorem jsonLike_not_typeObj (v : PyVal) (h : jsonLike v = true) :
    isTypeObj v = false := by
  cases v <;> simp_all [jsonLike, isTypeObj]

/-- The device constructor raises `TypeError` whenever the line
argument is not a class object: `isinstance('string', line)` demands a
class as its second argument. -/
theorem deviceInit_typeError (r : Registry) (guid name capabilities
    batteryLevel base line scenesAllowed isMaster isOnline
    softwareVersion : PyVal) (h : isTypeObj line = false) :
    NoonDevice.init r guid name capabilities batteryLevel base line
      scenesAllowed isMaster isOnline softwareVersion =
      .error .typeError := by
  cases line <;>
    simp_all [NoonDevice.init, NoonDevice.initLineField, pyIsInstance,
      isTypeObj]

/-- Parsing a device payload that carries guid and displayName reaches
the constructor and raises `TypeError` when the line entry is not a
class object. -/
theorem deviceFromJson_typeError (r : Registry)
    (entries : List (PyVal × PyVal))
    (hg : (dictGetD entries (.str "guid")).isNone = false)
    (hn : (dictGetD entries (.str "displayName")).isNone = false)
    (hl : isTypeObj (dictGetD entries (.str "line")) = false) :
    NoonDevice.fromJsonObject r (.dict entries) = .error .typeError := by
  simp [NoonDevice.fromJsonObject, hg, hn,
    deviceInit_typeError r _ _ _ _ _ _ _ _ _ _ hl]

/-- Every JSON-producible device payload makes the device parser
raise: a non-dict raises `NoonInvalidParametersError`, a dict without
guid or displayName raises `NoonInvalidJsonError`, and any other dict
reaches the constructor's `TypeError`. -/
theorem deviceFromJson_raises (r : Registry) (item : PyVal)
    (h : jsonLike item = true) :
    ∃ e, NoonDevice.fromJsonObject r item = .error e := by
  cases item with
  | dict entries =>
    cases hg : (dictGetD entries (.str "guid")).isNone with
    | true => exact ⟨.noonInvalidJsonError, by simp [NoonDevice.fromJsonObject, hg]⟩
    | false =>
      cases hn : (dictGetD entries (.str "displayName")).isNone with
      | true => exact ⟨.noonInvalidJsonError, by simp [NoonDevice.fromJsonObject, hg, hn]⟩
      | false =>
        refine ⟨.typeError, deviceFromJson_typeError r entries hg hn ?_⟩
        exact jsonLike_not_typeObj _
          (jsonLike_dictGetD entries _ (by simpa [jsonLike] using h))
  | none => exact ⟨.noonInvalidParametersError, by simp [NoonDevice.fromJsonObject]⟩
  | bool b => exact ⟨.noonInvalidParametersError, by simp [NoonDevice.fromJsonObject]⟩
  | int n => exact ⟨.noonInvalidParametersError, by simp [NoonDevice.fromJsonObject]⟩
  | str s => exact ⟨.noonInvalidParametersError, by simp [NoonDevice.fromJsonObject]⟩
  | list xs => exact ⟨.noonInvalidParametersError, by simp [NoonDevice.fromJsonObject]⟩
  | typeObj t => exact ⟨.noonInvalidParametersError, by simp [NoonDevice.fromJsonObject]⟩

/-- The devices loop raises as soon as it parses its first item. -/
theorem buildDevices_raises (r : Registry) (item : PyVal)
    (rest : List PyVal) (acc : List (PyVal × PyVal))
    (h : jsonLike item = true) :
    ∃ e, NoonSpace.buildDevices r (item :: rest) acc = .error e := by
  obtain ⟨e, he⟩ := deviceFromJson_raises r item h
  exact ⟨e, by simp [NoonSpace.buildDevices, he]⟩

/-- C4: the line-normalization expression
`line if isinstance('string', line) else line.guid` of the device
constructor raises `TypeError` for every argument that is not a class
object — the None, string and dict values discovery payloads supply
included — before the entity registration runs; consequently
`NoonDevice.fromJsonObject` never returns a device for a payload
carrying guid and displayName, and parsing a space payload whose
devices entry is a nonempty list of JSON values always raises. -/
theorem C4_device_construction_always_raises :
    (∀ (r : Registry) (guid name capabilities batteryLevel base line
        scenesAllowed isMaster isOnline softwareVersion : PyVal),
      isTypeObj line = false →
      NoonDevice.init r guid name capabilities batteryLevel base line
        scenesAllowed isMaster isOnline softwareVersion =
        .error .typeError)
    ∧ (∀ (r : Registry) (entries : List (PyVal × PyVal)),
        (dictGetD entries (.str "guid")).isNone = false →
        (dictGetD entries (.str "displayName")).isNone = false →
        isTypeObj (dictGetD entries (.str "line")) = false →
        NoonDevice.fromJsonObject r (.dict entries) = .error .typeError)
    ∧ (∀ (r : Registry) (entries : List (PyVal × PyVal))
        (items : List PyVal),
        dictGet? entries (.str "devices") = some (.list items) →
        items ≠ [] → jsonLikeList items = true →
        ∃ e, NoonSpace.fromJsonObject r (.dict entries) = .error e) := by
  refine ⟨deviceInit_typeError, deviceFromJson_typeError, ?_⟩
  intro r entries items hdev hne hjson
  cases hgn : (dictGetD entries (.str "guid")).isNone ||
      (dictGetD entries (.str "name")).isNone with
  | true => exact ⟨.noonInvalidJsonError, by simp [NoonSpace.fromJsonObject, hgn]⟩
  | false =>
    simp only [NoonSpace.fromJsonObject, hgn, Bool.false_eq_true, if_false]
    cases items with
    | nil => exact absurd rfl hne
    | cons item rest =>
      have hitem : jsonLike item = true := by
        simp only [jsonLikeList, Bool.and_eq_true] at hjson
        exact hjson.1
      cases hreg : Noon.registerEntity r
          (.space { guid := dictGetD entries (.str "guid"),
                    name := dictGetD entries (.str "name"),
                    subscribers := [], activeScene := .none,
                    lightsOn := .none, scenes := [], devices := [],
                    lines := [] }) with
      | error e => exact ⟨e, by simp [hreg]⟩
      | ok r1 =>
        cases hscn : pyIter ((dictGet? entries (.str "scenes")).getD (.list [])) with
        | error e =>
          exact ⟨e, by simp [hreg, NoonSpace.setActiveScene,
            NoonSpace.normalizeSceneValue, pyAssocGet, pyHashable, pyEq,
            NoonSpace.setLightsOn, hscn]⟩
        | ok sceneItems =>
          cases hbs : NoonSpace.buildScenes r1 (dictGetD entries (.str "guid"))
              sceneItems [] with
          | error e =>
            exact ⟨e, by simp [hreg, NoonSpace.setActiveScene,
              NoonSpace.normalizeSceneValue, pyAssocGet, pyHashable, pyEq,
              NoonSpace.setLightsOn, hscn, hbs]⟩
          | ok rs =>
            obtain ⟨e, he⟩ := buildDevices_raises rs.1 item rest [] hitem
            refine ⟨e, ?_⟩
            simp [hreg, NoonSpace.setActiveScene,
              NoonSpace.normalizeSceneValue, pyAssocGet, pyHashable, pyEq,
              NoonSpace.setLightsOn, hscn, hbs, hdev, pyIter, he]

/-- C4 witness: the demo device payload raises `TypeError`, and
parsing the demo space payload holding that one device raises
`TypeError` as well. -/
theorem C4_device_construction_always_raises_witness :
    NoonDevice.fromJsonObject Registry.empty (.dict C4devicePayload) =
      .error .typeError
    ∧ NoonSpace.fromJsonObject Registry.empty (.dict C4spacePayload) =
      .error .typeError := by
  have hdev := C4_device_construction_always_raises.2.1 Registry.empty
    C4devicePayload
    (by simp [C4devicePayload, dictGetD, pyEq, PyVal.isNone])
    (by simp [C4devicePayload, dictGetD, pyEq, PyVal.isNone])
    (by simp [C4devicePayload, dictGetD, pyEq, isTypeObj])
  refine ⟨hdev, ?_⟩
  simp [NoonSpace.fromJsonObject, C4spacePayload, C4devicePayload, dictGetD,
    dictGet?, pyEq, PyVal.isNone, Noon.registerEntity, pyAssocSet,
    pyAssocSetCore, pyAssocGet, pyHashable, NoonSpace.setActiveScene,
    NoonSpace.normalizeSceneValue, NoonSpace.setLightsOn, pyIter,
    NoonSpace.buildScenes, NoonSpace.buildDevices, NoonDevice.fromJsonObject,
    NoonDevice.init, NoonDevice.initLineField, pyIsInstance, Registry.empty,
    EntityState.guid]

/-- C9 counterexample: a change record whose guid value is an
(unhashable) dict makes `_handle_change` raise `TypeError` at the
flat-map lookup — so change-notification application does not never
raise. -/
theorem C9_handle_change_raises_counterexample :
    Noon.handleChange C9registry (.dict [(.str "guid", .dict [])]) =
      .error .typeError := by
  simp [Noon.handleChange, dictGetD, pyEq, PyVal.isNone, pyAssocGet,
    pyHashable]

/-- C9 amended: change-notification application never mutates state it
should not, though it can itself raise (for example on an unhashable
guid value): a change record with a missing or None guid, or a
hashable guid absent from the flat registry, is dropped with no entity
mutation and no dispatch anywhere; for a resolved entity, a field
whose name is not a writable property of the entity's concrete kind is
ignored with no mutation and no dispatch, while a writable field name
invokes the corresponding property setter with the given value, the
field list being routed through the flat-map entry in order. -/
theorem C9_handle_change_permissive :
    (∀ (r : Registry) (entries : List (PyVal × PyVal)),
      (dictGetD entries (.str "guid")).isNone = true →
      Noon.handleChange r (.dict entries) = .ok (r, []))
    ∧ (∀ (r : Registry) (entries : List (PyVal × PyVal)),
        (dictGetD entries (.str "guid")).isNone = false →
        pyAssocGet r.allEntities (dictGetD entries (.str "guid")) =
          .ok Option.none →
        Noon.handleChange r (.dict entries) = .ok (r, []))
    ∧ (∀ (e : EntityState) (fes : List (PyVal × PyVal)),
        pyInStrList (dictGetD fes (.str "name")) (writableFields e) = false →
        Noon.handleField e (.dict fes) = .ok (e, []))
    ∧ (∀ (e : EntityState) (fes : List (PyVal × PyVal)),
        pyInStrList (dictGetD fes (.str "name")) (writableFields e) = true →
        Noon.handleField e (.dict fes) =
          entitySetAttr e (dictGetD fes (.str "name"))
            (dictGetD fes (.str "value")))
    ∧ (∀ (r : Registry) (entries : List (PyVal × PyVal)) (e : EntityState)
        (fs : List PyVal),
        (dictGetD entries (.str "guid")).isNone = false →
        pyAssocGet r.allEntities (dictGetD entries (.str "guid")) =
          .ok (Option.some e) →
        (dictGet? entries (.str "fields")).getD (.list []) = .list fs →
        Noon.handleChange r (.dict entries) =
          Noon.applyFields r (dictGetD entries (.str "guid")) e fs []) := by
  refine ⟨?_, ?_, ?_, ?_, ?_⟩
  · intro r entries h
    simp [Noon.handleChange, h]
  · intro r entries h hl
    simp [Noon.handleChange, h, hl]
  · intro e fes h
    simp [Noon.handleField, h]
  · intro e fes h
    simp [Noon.handleField, h]
  · intro r entries e fs h hl hf
    simp [Noon.handleChange, h, hl, hf, pyIter]

/-- C9 witness: a notification for the unknown guid "zz" is dropped
with the registry unchanged and no dispatch, and a field named
"bogus" on the demo space is ignored. -/
theorem C9_handle_change_permissive_witness :
    Noon.handleChange C9registry (.dict [(.str "guid", .str "zz")]) =
      .ok (C9registry, [])
    ∧ Noon.handleField (.space demoSpace)
        (.dict [(.str "name", .str "bogus"), (.str "value", .bool true)]) =
      .ok (.space demoSpace, []) := by
  have h := C9_handle_change_permissive
  refine ⟨h.2.1 C9registry [(.str "guid", .str "zz")] ?_ ?_, ?_⟩
  · simp [dictGetD, pyEq, PyVal.isNone]
  · simp [dictGetD, pyEq, C9registry, pyAssocGet, pyHashable]
  · exact h.2.2.1 (.space demoSpace)
      [(.str "name", .str "bogus"), (.str "value", .bool true)]
      (by simp [dictGetD, pyEq, pyInStrList, writableFields])

end Pynoon
